import Mathlib

/-!
Shallow embedding of the attendance time-window and status-derivation logic
of the attendance_web repository.  The repository contains two independent
implementations of the same feature:

* `EmpApps`  — emp_apps/emp_apps/models.py and views.py
  (full `DateTimeField` timestamps, a persisted `AttendanceSettings` row,
  a 30-minute minimum-work check on check-out);
* `EmpAttd`  — attendance.v2/attendance/emp_attd/models.py and views.py
  (`TimeField` time-of-day values, hard-coded windows 08:00–09:00 and
  17:00–18:00, a 09:15 late cutoff, no minimum-work check).

Timestamps are modelled as natural numbers of seconds since an epoch that
falls on a local midnight, so the time-of-day of a timestamp `t` is
`t % 86400`; time-of-day values are seconds after midnight.  Work-hour
arithmetic is modelled over ℚ.  Python `round(x, 2)` performs correctly
rounded decimal rounding of the double `x` with ties going to the even
last digit; it is modelled by exact rational rounding with ties to even,
which agrees with the double semantics on every value used below (the tie
witness 0.125 is exactly representable as a double).
-/

namespace Attendance

/-- Seconds in one day. -/
def secPerDay : Nat := 86400

/-- Time-of-day (seconds after local midnight) of a timestamp. -/
def timeOfDay (t : Nat) : Nat := t % secPerDay

/-- Midnight timestamp of the date of `t` (Python `datetime.date` of an
aware datetime, re-embedded as the timestamp of that date at 00:00). -/
def dateOf (t : Nat) : Nat := t - t % secPerDay

/-- Python `datetime.combine(d, timeValue)` where `d` is a midnight
timestamp. -/
def datetimeCombine (dayStart : Nat) (tod : Nat) : Nat := dayStart + tod

/-- Python `time.strftime("%H:%M")` followed by `time.fromisoformat`:
truncates a time-of-day to whole minutes. -/
def strftimeHM (t : Nat) : Nat := t / 60 * 60

/-- Attendance status enum shared by both implementations
(`half_day` exists only in the EmpApps model; EmpAttd never uses it). -/
inductive Status where
  | present
  | absent
  | late
  | half_day
  deriving DecidableEq

/-- Round a rational to an integer with ties to even
(the tie-breaking rule of Python `round`). -/
def roundHalfEvenInt (q : ℚ) : ℤ :=
  let f : ℤ := ⌊q⌋
  if q - f < 1/2 then f
  else if (1 : ℚ)/2 < q - f then f + 1
  else if f % 2 = 0 then f else f + 1

/-- Python `round(x, 2)`: two decimal places, ties to even. -/
def pythonRound2 (q : ℚ) : ℚ := (roundHalfEvenInt (q * 100) : ℚ) / 100

/-- Modelled from the spec: rounding "half-up to 2 decimal places",
the rounding rule the specification claims for work hours.  Defined only
to be compared against the code-derived `pythonRound2`. -/
def specRoundHalfUp2 (q : ℚ) : ℚ := ((⌊q * 100 + 1/2⌋ : ℤ) : ℚ) / 100

namespace EmpApps

/-- emp_apps/models.py `AttendanceSettings` — the fields read by the
check-in/check-out logic.  Times are time-of-day in seconds after
midnight; the Django defaults are standard 09:00, threshold 15 min,
check-in window [07:00, 11:00], check-out window [15:00, 20:00]. -/
structure AttendanceSettings where
  standard_check_in_time : Nat
  late_threshold_minutes : Nat
  check_in_start_time : Nat
  check_in_end_time : Nat
  check_out_start_time : Nat
  check_out_end_time : Nat
  deriving DecidableEq

/-- The Django field defaults of `AttendanceSettings`. -/
def defaultSettings : AttendanceSettings where
  standard_check_in_time := 9 * 3600
  late_threshold_minutes := 15
  check_in_start_time := 7 * 3600
  check_in_end_time := 11 * 3600
  check_out_start_time := 15 * 3600
  check_out_end_time := 20 * 3600

/-- emp_apps/models.py `AttendanceRecord` — the fields touched by the
attendance logic.  `check_in_time` and `check_out_time` are full
timestamps (DateTimeField); `work_hours` is the stored decimal. -/
structure AttendanceRecord where
  check_in_time : Option Nat
  check_out_time : Option Nat
  status : Status
  work_hours : Option ℚ
  notes : String
  deriving DecidableEq

/-- The record produced by `AttendanceRecord.objects.get_or_create`
with `defaults={'status': 'absent'}`. -/
def newRecord : AttendanceRecord where
  check_in_time := none
  check_out_time := none
  status := Status.absent
  work_hours := none
  notes := ""

/-- models.py `AttendanceRecord.is_late(standard_time)`: compares the
check-in timestamp against `datetime.combine(check_in.date, standard)`;
`False` when there is no check-in. -/
def is_late (r : AttendanceRecord) (standard_time : Nat) : Bool :=
  match r.check_in_time with
  | some t => decide (t > datetimeCombine (dateOf t) standard_time)
  | none => false

/-- models.py `AttendanceRecord.calculate_work_hours`: when both
timestamps are present, sets `work_hours` to the duration in hours
rounded by Python `round(·, 2)` and returns it; otherwise returns 0 and
leaves the record unchanged. -/
def calculate_work_hours (r : AttendanceRecord) : AttendanceRecord × ℚ :=
  match r.check_in_time, r.check_out_time with
  | some ci, some co =>
    let hours : ℚ := (((co : ℤ) - (ci : ℤ) : ℤ) : ℚ) / 3600
    let wh := pythonRound2 hours
    ({ r with work_hours := some wh }, wh)
  | _, _ => (r, 0)

/-- The status half of models.py `AttendanceRecord.save`: auto-derives
`status` from `is_late()` at the default standard time 09:00 when a
check-in exists and the status is still `absent`. -/
def save_status (r : AttendanceRecord) : AttendanceRecord :=
  if r.check_in_time.isSome ∧ r.status = Status.absent then
    if is_late r (9 * 3600) then { r with status := Status.late }
    else { r with status := Status.present }
  else r

/-- models.py `AttendanceRecord.save`: auto-recomputes work hours when
both timestamps are present, then applies the status auto-derivation. -/
def save (r : AttendanceRecord) : AttendanceRecord :=
  save_status (if r.check_in_time.isSome ∧ r.check_out_time.isSome then
    (calculate_work_hours r).1 else r)

/-- models.py `AttendanceSettings.is_check_in_allowed`. -/
def is_check_in_allowed (s : AttendanceSettings) (t : Nat) : Bool :=
  decide (s.check_in_start_time ≤ timeOfDay t ∧ timeOfDay t ≤ s.check_in_end_time)

/-- models.py `AttendanceSettings.is_check_out_allowed`. -/
def is_check_out_allowed (s : AttendanceSettings) (t : Nat) : Bool :=
  decide (s.check_out_start_time ≤ timeOfDay t ∧ timeOfDay t ≤ s.check_out_end_time)

/-- Result of the emp_apps `check_in` view, keyed by the JSON response
branch taken. -/
inductive CheckInResult where
  | success (st : Status)
  | outOfWindow
  | alreadyCheckedIn
  deriving DecidableEq

/-- Result of the emp_apps `check_out` view, keyed by the JSON response
branch taken. -/
inductive CheckOutResult where
  | success (workHours : ℚ)
  | outOfWindow
  | noRecord
  | notCheckedIn
  | alreadyCheckedOut
  | tooSoon
  deriving DecidableEq

/-- views.py `check_in`: the state is the day's record for the employee
(`none` when no row exists yet).  Mirrors the view body: window check,
get-or-create, already-checked-in guard, set check-in time, derive the
status with `is_late(settings.standard_check_in_time.strftime("%H:%M"))`,
then `save()`. -/
def check_in (s : AttendanceSettings) (rec0 : Option AttendanceRecord) (t : Nat) :
    CheckInResult × Option AttendanceRecord :=
  if ¬ is_check_in_allowed s t then (CheckInResult.outOfWindow, rec0)
  else
    let r := rec0.getD newRecord
    if r.check_in_time.isSome then (CheckInResult.alreadyCheckedIn, some r)
    else
      let r1 := { r with check_in_time := some t }
      let r2 := if is_late r1 (strftimeHM s.standard_check_in_time) then
        { r1 with status := Status.late } else { r1 with status := Status.present }
      let r3 := save r2
      (CheckInResult.success r3.status, some r3)

/-- views.py `check_out`: window check, record lookup, checked-in guard,
already-checked-out guard, 30-minute minimum-work guard, then set the
check-out time, `calculate_work_hours()` and `save()`. -/
def check_out (s : AttendanceSettings) (rec0 : Option AttendanceRecord) (t : Nat) :
    CheckOutResult × Option AttendanceRecord :=
  if ¬ is_check_out_allowed s t then (CheckOutResult.outOfWindow, rec0)
  else
    match rec0 with
    | none => (CheckOutResult.noRecord, none)
    | some r =>
      if r.check_in_time.isNone then (CheckOutResult.notCheckedIn, some r)
      else if r.check_out_time.isSome then (CheckOutResult.alreadyCheckedOut, some r)
      else
        let ci := r.check_in_time.getD 0
        if ((t : ℤ) - (ci : ℤ)) < 30 * 60 then (CheckOutResult.tooSoon, some r)
        else
          let r1 := { r with check_out_time := some t }
          let p := calculate_work_hours r1
          let r2 := save p.1
          (CheckOutResult.success p.2, some r2)

/-- The status-derivation logic of emp_apps as a pure function (the
specification's `deriveStatus`): `absent` without a check-in, otherwise
the `is_late` branch of the `check_in` view at the settings standard
time truncated to minutes. -/
def deriveStatus (r : AttendanceRecord) (s : AttendanceSettings) : Status :=
  match r.check_in_time with
  | none => Status.absent
  | some _ =>
    if is_late r (strftimeHM s.standard_check_in_time) then Status.late
    else Status.present

/-- views.py `get_attendance_status`: the `can_check_in` flag computed
for an existing record. -/
def can_check_in (s : AttendanceSettings) (r : AttendanceRecord) (t : Nat) : Bool :=
  is_check_in_allowed s t && !r.check_in_time.isSome

/-- True on the non-success branches of the emp_apps `check_in` view. -/
def isFailureIn : CheckInResult → Bool
  | CheckInResult.success _ => false
  | _ => true

/-- True on the non-success branches of the emp_apps `check_out` view. -/
def isFailureOut : CheckOutResult → Bool
  | CheckOutResult.success _ => false
  | _ => true

end EmpApps

namespace EmpAttd

/-- attendance.v2 emp_attd/models.py `Attendance` — the fields touched
by the attendance logic.  `check_in_time` and `check_out_time` are
time-of-day values (TimeField), seconds after midnight. -/
structure Attendance where
  check_in_time : Option Nat
  check_out_time : Option Nat
  status : Status
  is_late : Bool
  notes : String
  deriving DecidableEq

/-- models.py `Attendance.can_check_in`: hard-coded window
[08:00, 09:00] and no check-in yet. -/
def can_check_in (a : Attendance) (now : Nat) : Bool :=
  decide (8 * 3600 ≤ now ∧ now ≤ 9 * 3600) && !a.check_in_time.isSome

/-- models.py `Attendance.can_check_out`: hard-coded window
[17:00, 18:00], checked in, not yet checked out. -/
def can_check_out (a : Attendance) (now : Nat) : Bool :=
  decide (17 * 3600 ≤ now ∧ now ≤ 18 * 3600)
    && a.check_in_time.isSome && !a.check_out_time.isSome

/-- Result of the emp_attd `check_in` view; `success` carries the
`is_late` flag that selects the on-time/late JSON response. -/
inductive CheckInResult where
  | success (isLate : Bool)
  | outOfWindow
  | alreadyCheckedIn
  deriving DecidableEq

/-- Result of the emp_attd `check_out` view; `success` carries the
reported `work_duration` in hours (no rounding in the stored state). -/
inductive CheckOutResult where
  | success (workDuration : ℚ)
  | outOfWindow
  | noRecord
  | notCheckedIn
  | alreadyCheckedOut
  deriving DecidableEq

/-- views.py emp_attd `check_in`: window check [08:00, 09:00], then
`get_or_create` whose defaults already set the check-in time and derive
status/is_late from the 09:15 cutoff; on a pre-existing record the same
guard and update run explicitly. -/
def check_in (rec0 : Option Attendance) (now : Nat) :
    CheckInResult × Option Attendance :=
  if ¬ (8 * 3600 ≤ now ∧ now ≤ 9 * 3600) then (CheckInResult.outOfWindow, rec0)
  else
    match rec0 with
    | none =>
      let a : Attendance :=
        { check_in_time := some now
          check_out_time := none
          status := if now > 9 * 3600 + 15 * 60 then Status.late else Status.present
          is_late := decide (now > 9 * 3600 + 15 * 60)
          notes := "" }
      (CheckInResult.success a.is_late, some a)
    | some a =>
      if a.check_in_time.isSome then (CheckInResult.alreadyCheckedIn, some a)
      else
        let a1 :=
          { a with
            check_in_time := some now
            status := if now > 9 * 3600 + 15 * 60 then Status.late else Status.present
            is_late := decide (now > 9 * 3600 + 15 * 60) }
        (CheckInResult.success a1.is_late, some a1)

/-- views.py emp_attd `check_out`: window check [17:00, 18:00], record
lookup, checked-in guard, already-checked-out guard, then set the
check-out time and report the elapsed duration in hours.  There is no
minimum-work-time guard in this implementation. -/
def check_out (rec0 : Option Attendance) (now : Nat) :
    CheckOutResult × Option Attendance :=
  if ¬ (17 * 3600 ≤ now ∧ now ≤ 18 * 3600) then (CheckOutResult.outOfWindow, rec0)
  else
    match rec0 with
    | none => (CheckOutResult.noRecord, none)
    | some a =>
      if ¬ a.check_in_time.isSome then (CheckOutResult.notCheckedIn, some a)
      else if a.check_out_time.isSome then (CheckOutResult.alreadyCheckedOut, some a)
      else
        let a1 := { a with check_out_time := some now }
        let ci := a.check_in_time.getD 0
        let dur : ℚ := (((now : ℤ) - (ci : ℤ) : ℤ) : ℚ) / 3600
        (CheckOutResult.success dur, some a1)

/-- True on the non-success branches of the emp_attd `check_in` view. -/
def isFailureIn : CheckInResult → Bool
  | CheckInResult.success _ => false
  | _ => true

/-- True on the non-success branches of the emp_attd `check_out` view. -/
def isFailureOut : CheckOutResult → Bool
  | CheckOutResult.success _ => false
  | _ => true

end EmpAttd

/-! ## Helper lemmas -/

/-- The emp_apps `is_late` comparison of full timestamps reduces to a
time-of-day comparison. -/
theorem is_late_iff (r : EmpApps.AttendanceRecord) (t std : Nat)
    (h : r.check_in_time = some t) :
    EmpApps.is_late r std = true ↔ std < timeOfDay t := by
  simp only [EmpApps.is_late, h, gt_iff_lt, decide_eq_true_eq]
  unfold datetimeCombine dateOf timeOfDay secPerDay
  omega

/-- The pure `calculate_work_hours` only touches the `work_hours` field. -/
theorem calculate_work_hours_fields (r : EmpApps.AttendanceRecord) :
    (EmpApps.calculate_work_hours r).1.check_in_time = r.check_in_time ∧
    (EmpApps.calculate_work_hours r).1.check_out_time = r.check_out_time ∧
    (EmpApps.calculate_work_hours r).1.status = r.status ∧
    (EmpApps.calculate_work_hours r).1.notes = r.notes := by
  unfold EmpApps.calculate_work_hours
  cases hci : r.check_in_time <;> cases hco : r.check_out_time <;> simp [hci, hco]

/-- The status half of `save` does nothing once the status differs from
`absent`. -/
theorem save_status_of_ne_absent (r : EmpApps.AttendanceRecord)
    (h : r.status ≠ Status.absent) : EmpApps.save_status r = r := by
  unfold EmpApps.save_status
  simp [h]

/-- The status half of `save` never changes the check-in time. -/
theorem save_status_check_in_time (r : EmpApps.AttendanceRecord) :
    (EmpApps.save_status r).check_in_time = r.check_in_time := by
  unfold EmpApps.save_status
  split
  · split <;> rfl
  · rfl

/-- Saving never changes the check-in time. -/
theorem save_check_in_time (r : EmpApps.AttendanceRecord) :
    (EmpApps.save r).check_in_time = r.check_in_time := by
  unfold EmpApps.save
  rw [save_status_check_in_time]
  split
  · exact (calculate_work_hours_fields r).1
  · rfl

/-! ## Theorems for the claims -/

/-- C1 (amended): `deriveStatus` is a pure function of the record and
settings: with no check-in it returns `absent`; with a check-in it
returns `late` iff the check-in time-of-day strictly exceeds the
standard check-in time truncated to whole minutes, and otherwise
`present`; the configured late-threshold minutes are not applied. -/
theorem c1_deriveStatus_strict_cutoff (r : EmpApps.AttendanceRecord)
    (s : EmpApps.AttendanceSettings) :
    (r.check_in_time = none → EmpApps.deriveStatus r s = Status.absent) ∧
    ∀ t, r.check_in_time = some t →
      ((EmpApps.deriveStatus r s = Status.late ↔
        strftimeHM s.standard_check_in_time < timeOfDay t) ∧
       (EmpApps.deriveStatus r s = Status.present ↔
        ¬ strftimeHM s.standard_check_in_time < timeOfDay t)) := by
  constructor
  · intro h
    simp [EmpApps.deriveStatus, h]
  · intro t h
    have hl := is_late_iff r t (strftimeHM s.standard_check_in_time) h
    by_cases hc : strftimeHM s.standard_check_in_time < timeOfDay t
    · have hb : EmpApps.is_late r (strftimeHM s.standard_check_in_time) = true :=
        hl.mpr hc
      simp [EmpApps.deriveStatus, h, hb, hc]
    · have hb : EmpApps.is_late r (strftimeHM s.standard_check_in_time) = false := by
        cases hb : EmpApps.is_late r (strftimeHM s.standard_check_in_time)
        · rfl
        · exact absurd (hl.mp hb) hc
      simp [EmpApps.deriveStatus, h, hb, hc]

/-- C1 witness: a 09:20 check-in against the default settings (standard
09:00) is classified `late`. -/
theorem c1_witness :
    EmpApps.deriveStatus
      { check_in_time := some 33600, check_out_time := none,
        status := Status.absent, work_hours := none, notes := "" }
      EmpApps.defaultSettings = Status.late :=
  ((c1_deriveStatus_strict_cutoff
      { check_in_time := some 33600, check_out_time := none,
        status := Status.absent, work_hours := none, notes := "" }
      EmpApps.defaultSettings).2 33600 rfl).1.mpr (by decide)

/-- C1 counterexample: a 09:10 check-in exceeds the default standard
time 09:00 by only 10 minutes, within the configured 15-minute
late-threshold, yet the code classifies it `late` — the threshold is
never applied. -/
theorem c1_cex :
    EmpApps.deriveStatus
      { check_in_time := some 33000, check_out_time := none,
        status := Status.absent, work_hours := none, notes := "" }
      EmpApps.defaultSettings = Status.late ∧
    ¬ (EmpApps.defaultSettings.standard_check_in_time +
        EmpApps.defaultSettings.late_threshold_minutes * 60 < timeOfDay 33000) := by
  decide

/-- C2 (amended): on a record with no stored work hours,
`calculate_work_hours` defines `work_hours` iff both timestamps are
present, and the defined value is the timestamp difference in seconds
divided by 3600, rounded to 2 decimal places with ties to even (the
Python `round` rule), not half-up. -/
theorem c2_work_hours_round_half_even (r : EmpApps.AttendanceRecord)
    (h : r.work_hours = none) :
    ((EmpApps.calculate_work_hours r).1.work_hours.isSome ↔
      (r.check_in_time.isSome ∧ r.check_out_time.isSome)) ∧
    ∀ ci co, r.check_in_time = some ci → r.check_out_time = some co →
      (EmpApps.calculate_work_hours r).1.work_hours =
        some (pythonRound2 ((((co : ℤ) - (ci : ℤ) : ℤ) : ℚ) / 3600)) := by
  constructor
  · cases hci : r.check_in_time <;> cases hco : r.check_out_time <;>
      simp [EmpApps.calculate_work_hours, hci, hco, h]
  · intro ci co hci hco
    simp [EmpApps.calculate_work_hours, hci, hco]

/-- C2 witness: check-in 09:00, check-out 17:30 yields the rounded
duration of 8.5 hours. -/
theorem c2_witness :
    (EmpApps.calculate_work_hours
      { check_in_time := some 32400, check_out_time := some 63000,
        status := Status.present, work_hours := none, notes := "" }).1.work_hours =
      some (pythonRound2 ((((63000 : ℤ) - (32400 : ℤ) : ℤ) : ℚ) / 3600)) :=
  (c2_work_hours_round_half_even
    { check_in_time := some 32400, check_out_time := some 63000,
      status := Status.present, work_hours := none, notes := "" } rfl).2
    32400 63000 rfl rfl

/-- C2 counterexample: a 450-second stay is 0.125 h; Python `round`
gives 0.12 (tie to even) while the specified half-up rounding demands
0.13. -/
theorem c2_cex :
    (EmpApps.calculate_work_hours
      { check_in_time := some 32400, check_out_time := some 32850,
        status := Status.present, work_hours := none, notes := "" }).1.work_hours =
      some (12 / 100) ∧
    specRoundHalfUp2 ((((32850 : ℤ) - (32400 : ℤ) : ℤ) : ℚ) / 3600) = 13 / 100 ∧
    ((12 : ℚ) / 100 ≠ (13 : ℚ) / 100) := by
  refine ⟨?_, ?_, by norm_num⟩
  · simp [EmpApps.calculate_work_hours]
    norm_num [pythonRound2, roundHalfEvenInt]
  · norm_num [specRoundHalfUp2]

/-- C5: the can-check-in computation of both implementations is true
iff the current time-of-day lies in the closed check-in window and the
record has no check-in; both are pure functions of their arguments. -/
theorem c5_can_check_in_iff (s : EmpApps.AttendanceSettings)
    (r : EmpApps.AttendanceRecord) (t : Nat) (a : EmpAttd.Attendance) (n : Nat) :
    (EmpApps.can_check_in s r t = true ↔
      (s.check_in_start_time ≤ timeOfDay t ∧ timeOfDay t ≤ s.check_in_end_time ∧
        r.check_in_time = none)) ∧
    (EmpAttd.can_check_in a n = true ↔
      (8 * 3600 ≤ n ∧ n ≤ 9 * 3600 ∧ a.check_in_time = none)) := by
  constructor
  · cases hr : r.check_in_time <;>
      simp [EmpApps.can_check_in, EmpApps.is_check_in_allowed, hr, and_assoc]
  · cases ha : a.check_in_time <;> simp [EmpAttd.can_check_in, ha, and_assoc]

/-- C3 (amended): in the emp_apps implementation (the only one with a
minimum-work guard), a check-out attempt inside the window on a record
that is checked in but not out, less than 30 minutes after check-in,
fails with TooSoon and leaves the record unchanged. -/
theorem c3_too_soon (s : EmpApps.AttendanceSettings) (r : EmpApps.AttendanceRecord)
    (t ci : Nat) (hw : EmpApps.is_check_out_allowed s t = true)
    (hci : r.check_in_time = some ci) (hco : r.check_out_time = none)
    (hlt : (t : ℤ) - (ci : ℤ) < 30 * 60) :
    EmpApps.check_out s (some r) t = (EmpApps.CheckOutResult.tooSoon, some r) := by
  have hlt2 : (t : ℤ) - (ci : ℤ) < 1800 := by omega
  unfold EmpApps.check_out
  simp [hw, hci, hco, hlt2]

/-- C3 witness: check-in 17:00, check-out attempt 17:05 inside the
emp_apps window fails TooSoon with the record unchanged. -/
theorem c3_witness :
    EmpApps.check_out EmpApps.defaultSettings
      (some { check_in_time := some 61200, check_out_time := none,
              status := Status.present, work_hours := none, notes := "" }) 61500 =
    (EmpApps.CheckOutResult.tooSoon,
     some { check_in_time := some 61200, check_out_time := none,
            status := Status.present, work_hours := none, notes := "" }) :=
  c3_too_soon EmpApps.defaultSettings
    { check_in_time := some 61200, check_out_time := none,
      status := Status.present, work_hours := none, notes := "" }
    61500 61200 (by decide) rfl rfl (by decide)

/-- C3 counterexample: in the emp_attd implementation a check-out 15
minutes after check-in (16:50 to 17:05), inside the window
[17:00, 18:00], succeeds and stores the check-out time — the claimed
TooSoon failure does not exist there. -/
theorem c3_cex :
    EmpAttd.check_out
      (some { check_in_time := some (16 * 3600 + 50 * 60), check_out_time := none,
              status := Status.present, is_late := false, notes := "" })
      (17 * 3600 + 5 * 60) =
    (EmpAttd.CheckOutResult.success (1 / 4),
     some { check_in_time := some (16 * 3600 + 50 * 60),
            check_out_time := some (17 * 3600 + 5 * 60),
            status := Status.present, is_late := false, notes := "" }) := by
  unfold EmpAttd.check_out
  norm_num

/-- After a check-in attempt inside the emp_apps window the stored
record exists and has a check-in time (freshly set or pre-existing). -/
theorem empapps_check_in_checked_in (s : EmpApps.AttendanceSettings)
    (rec0 : Option EmpApps.AttendanceRecord) (t : Nat)
    (ht : EmpApps.is_check_in_allowed s t = true) :
    ∃ r1, (EmpApps.check_in s rec0 t).2 = some r1 ∧ r1.check_in_time.isSome = true := by
  cases rec0 with
  | none =>
    simp only [EmpApps.check_in, ht, not_true_eq_false, if_false, Option.getD_none,
      EmpApps.newRecord]
    simp
    rw [save_check_in_time]
    split <;> rfl
  | some r =>
    by_cases hr : r.check_in_time.isSome
    · simp [EmpApps.check_in, ht, hr]
    · simp [EmpApps.check_in, ht, hr]
      rw [save_check_in_time]
      split <;> rfl

/-- A check-in attempt inside the emp_apps window on a record that is
already checked in fails with AlreadyCheckedIn and changes nothing. -/
theorem empapps_check_in_already (s : EmpApps.AttendanceSettings)
    (r : EmpApps.AttendanceRecord) (u : Nat)
    (hu : EmpApps.is_check_in_allowed s u = true)
    (hr : r.check_in_time.isSome = true) :
    EmpApps.check_in s (some r) u = (EmpApps.CheckInResult.alreadyCheckedIn, some r) := by
  unfold EmpApps.check_in
  simp [hu, hr]

/-- After a check-in attempt inside the emp_attd window the stored
record exists and has a check-in time. -/
theorem empattd_check_in_checked_in (b : Option EmpAttd.Attendance) (v : Nat)
    (hv : 8 * 3600 ≤ v ∧ v ≤ 9 * 3600) :
    ∃ a1, (EmpAttd.check_in b v).2 = some a1 ∧ a1.check_in_time.isSome = true := by
  cases b with
  | none => simp [EmpAttd.check_in, hv]
  | some a =>
    by_cases ha : a.check_in_time.isSome
    · simp [EmpAttd.check_in, hv, ha]
    · simp [EmpAttd.check_in, hv, ha]

/-- A check-in attempt inside the emp_attd window on a record that is
already checked in fails with AlreadyCheckedIn and changes nothing. -/
theorem empattd_check_in_already (a : EmpAttd.Attendance) (w : Nat)
    (hw : 8 * 3600 ≤ w ∧ w ≤ 9 * 3600) (ha : a.check_in_time.isSome = true) :
    EmpAttd.check_in (some a) w = (EmpAttd.CheckInResult.alreadyCheckedIn, some a) := by
  unfold EmpAttd.check_in
  simp [hw, ha]

/-- C4: check-in is idempotent in effect in both implementations: after
any check-in call inside the window, a second call inside the window
fails with AlreadyCheckedIn and leaves the stored record exactly as the
first call left it. -/
theorem c4_check_in_idempotent (s : EmpApps.AttendanceSettings)
    (rec0 : Option EmpApps.AttendanceRecord) (t u : Nat)
    (b : Option EmpAttd.Attendance) (v w : Nat)
    (ht : EmpApps.is_check_in_allowed s t = true)
    (hu : EmpApps.is_check_in_allowed s u = true)
    (hv : 8 * 3600 ≤ v ∧ v ≤ 9 * 3600) (hw : 8 * 3600 ≤ w ∧ w ≤ 9 * 3600) :
    EmpApps.check_in s (EmpApps.check_in s rec0 t).2 u =
      (EmpApps.CheckInResult.alreadyCheckedIn, (EmpApps.check_in s rec0 t).2) ∧
    EmpAttd.check_in (EmpAttd.check_in b v).2 w =
      (EmpAttd.CheckInResult.alreadyCheckedIn, (EmpAttd.check_in b v).2) := by
  constructor
  · obtain ⟨r1, h1, h2⟩ := empapps_check_in_checked_in s rec0 t ht
    rw [h1]
    exact empapps_check_in_already s r1 u hu h2
  · obtain ⟨a1, h1, h2⟩ := empattd_check_in_checked_in b v hv
    rw [h1]
    exact empattd_check_in_already a1 w hw h2

/-- C4 witness: checking in twice at 08:00 and 08:30 (both windows
admit these times in both implementations). -/
theorem c4_witness :
    EmpApps.check_in EmpApps.defaultSettings
        (EmpApps.check_in EmpApps.defaultSettings none 28800).2 30600 =
      (EmpApps.CheckInResult.alreadyCheckedIn,
        (EmpApps.check_in EmpApps.defaultSettings none 28800).2) ∧
    EmpAttd.check_in (EmpAttd.check_in none 28800).2 30600 =
      (EmpAttd.CheckInResult.alreadyCheckedIn, (EmpAttd.check_in none 28800).2) :=
  c4_check_in_idempotent EmpApps.defaultSettings none 28800 30600 none 28800 30600
    (by decide) (by decide) (by decide) (by decide)

/-- C6: the out-of-window check is the first precondition of check-out
in both implementations: outside the window the attempt fails with
OutOfWindow for every record state and leaves the state unchanged. -/
theorem c6_check_out_window_first (s : EmpApps.AttendanceSettings)
    (rec0 : Option EmpApps.AttendanceRecord) (t : Nat)
    (b : Option EmpAttd.Attendance) (n : Nat)
    (h1 : EmpApps.is_check_out_allowed s t = false)
    (h2 : ¬ (17 * 3600 ≤ n ∧ n ≤ 18 * 3600)) :
    EmpApps.check_out s rec0 t = (EmpApps.CheckOutResult.outOfWindow, rec0) ∧
    EmpAttd.check_out b n = (EmpAttd.CheckOutResult.outOfWindow, b) := by
  constructor
  · unfold EmpApps.check_out
    simp [h1]
  · unfold EmpAttd.check_out
    simp [h2]

/-- C6 witness: a checked-in record at 08:00 with a check-out attempt
at 08:10 fails OutOfWindow in both implementations, unchanged. -/
theorem c6_witness :
    EmpApps.check_out EmpApps.defaultSettings
      (some { check_in_time := some 28800, check_out_time := none,
              status := Status.present, work_hours := none, notes := "" }) 29400 =
    (EmpApps.CheckOutResult.outOfWindow,
     some { check_in_time := some 28800, check_out_time := none,
            status := Status.present, work_hours := none, notes := "" }) ∧
    EmpAttd.check_out
      (some { check_in_time := some 28800, check_out_time := none,
              status := Status.present, is_late := false, notes := "" }) 29400 =
    (EmpAttd.CheckOutResult.outOfWindow,
     some { check_in_time := some 28800, check_out_time := none,
            status := Status.present, is_late := false, notes := "" }) :=
  c6_check_out_window_first EmpApps.defaultSettings
    (some { check_in_time := some 28800, check_out_time := none,
            status := Status.present, work_hours := none, notes := "" }) 29400
    (some { check_in_time := some 28800, check_out_time := none,
            status := Status.present, is_late := false, notes := "" }) 29400
    (by decide) (by decide)

/-- Saving preserves a status that is not `absent`. -/
theorem save_status_field_of_ne_absent (r : EmpApps.AttendanceRecord)
    (h : r.status ≠ Status.absent) : (EmpApps.save r).status = r.status := by
  unfold EmpApps.save
  split
  · rw [save_status_of_ne_absent _
      (by rw [(calculate_work_hours_fields r).2.2.1]; exact h)]
    exact (calculate_work_hours_fields r).2.2.1
  · rw [save_status_of_ne_absent _ h]

/-- C7 (amended): once a record has a check-in time and a status other
than `absent`, no subsequent save, check-in, or check-out operation of
emp_apps changes the status field. -/
theorem c7_status_stable (s : EmpApps.AttendanceSettings)
    (r : EmpApps.AttendanceRecord) (t u : Nat)
    (hci : r.check_in_time.isSome = true) (hst : r.status ≠ Status.absent) :
    (EmpApps.save r).status = r.status ∧
    ((EmpApps.check_in s (some r) t).2.map EmpApps.AttendanceRecord.status) =
      some r.status ∧
    ((EmpApps.check_out s (some r) u).2.map EmpApps.AttendanceRecord.status) =
      some r.status := by
  refine ⟨save_status_field_of_ne_absent r hst, ?_, ?_⟩
  · unfold EmpApps.check_in
    by_cases hw : EmpApps.is_check_in_allowed s t = true
    · simp [hw, hci]
    · simp [hw]
  · unfold EmpApps.check_out
    by_cases hw : EmpApps.is_check_out_allowed s u = true
    · obtain ⟨ci, hc⟩ := Option.isSome_iff_exists.mp hci
      cases hco : r.check_out_time with
      | some x => simp [hw, hc, hco]
      | none =>
        by_cases hts : (u : ℤ) - (ci : ℤ) < 1800
        · simp [hw, hc, hco, hts]
        · have h1 : (EmpApps.calculate_work_hours
              { check_in_time := some ci, check_out_time := some u,
                status := r.status, work_hours := r.work_hours,
                notes := r.notes }).1.status = r.status :=
            (calculate_work_hours_fields _).2.2.1
          simp only [hw, not_true_eq_false, if_false, hc, hco]
          simp [hts]
          rw [save_status_field_of_ne_absent _ (by rw [h1]; exact hst), h1]
    · simp [hw]

/-- C7 witness: a checked-in record with status `late` keeps that
status through save, a repeated check-in at 08:00 and a check-out at
18:00. -/
theorem c7_witness :
    (EmpApps.save
      { check_in_time := some 32400, check_out_time := none,
        status := Status.late, work_hours := none, notes := "" }).status =
      Status.late ∧
    ((EmpApps.check_in EmpApps.defaultSettings
      (some { check_in_time := some 32400, check_out_time := none,
              status := Status.late, work_hours := none, notes := "" })
      28800).2.map EmpApps.AttendanceRecord.status) = some Status.late ∧
    ((EmpApps.check_out EmpApps.defaultSettings
      (some { check_in_time := some 32400, check_out_time := none,
              status := Status.late, work_hours := none, notes := "" })
      64800).2.map EmpApps.AttendanceRecord.status) = some Status.late :=
  c7_status_stable EmpApps.defaultSettings
    { check_in_time := some 32400, check_out_time := none,
      status := Status.late, work_hours := none, notes := "" }
    28800 64800 rfl (by decide)

/-- C7 counterexample: a record with the administrative status
`half_day` but no check-in yet has its status silently overwritten to
`present` by a later check-in — status is not stable merely because it
differs from `absent`. -/
theorem c7_cex :
    ((EmpApps.check_in EmpApps.defaultSettings
        (some { check_in_time := none, check_out_time := none,
                status := Status.half_day, work_hours := none, notes := "" })
        28800).2.map EmpApps.AttendanceRecord.status) = some Status.present ∧
    Status.present ≠ Status.half_day := by
  decide

/-- C9: in the emp_attd implementation every successful check-in
reports on-time and stores status `present` with `is_late = false`:
the check-in window closes at 09:00 while the late cutoff is 09:15, so
the late branch is unreachable. -/
theorem c9_no_late_check_in (rec0 : Option EmpAttd.Attendance) (now : Nat)
    (b : Bool) (st : Option EmpAttd.Attendance)
    (h : EmpAttd.check_in rec0 now = (EmpAttd.CheckInResult.success b, st)) :
    b = false ∧ st.map EmpAttd.Attendance.status = some Status.present ∧
    st.map EmpAttd.Attendance.is_late = some false := by
  unfold EmpAttd.check_in at h
  split at h
  · simp at h
  · rename_i hwin
    rw [not_not] at hwin
    have hlate : ¬ (9 * 3600 + 15 * 60 < now) := by omega
    split at h
    · simp only [Prod.mk.injEq, EmpAttd.CheckInResult.success.injEq] at h
      obtain ⟨hb, hst⟩ := h
      subst hst
      simp_all [decide_eq_false hlate, if_neg hlate]
    · split at h
      · simp at h
      · simp only [Prod.mk.injEq, EmpAttd.CheckInResult.success.injEq] at h
        obtain ⟨hb, hst⟩ := h
        subst hst
        simp_all [decide_eq_false hlate, if_neg hlate]

/-- C9 witness: a fresh check-in at 08:20 succeeds, reports on-time and
stores status `present` with `is_late = false`. -/
theorem c9_witness :
    false = false ∧
    Option.map EmpAttd.Attendance.status
      (some { check_in_time := some 30000, check_out_time := none,
              status := Status.present, is_late := false, notes := "" }) =
      some Status.present ∧
    Option.map EmpAttd.Attendance.is_late
      (some { check_in_time := some 30000, check_out_time := none,
              status := Status.present, is_late := false, notes := "" }) =
      some false :=
  c9_no_late_check_in none 30000 false
    (some { check_in_time := some 30000, check_out_time := none,
            status := Status.present, is_late := false, notes := "" })
    (by decide)

/-- C10: check-in and check-out fail atomically in both
implementations: whenever the returned result is any failure, the
stored state equals the input state, every field included. -/
theorem c10_failure_leaves_state (s : EmpApps.AttendanceSettings)
    (rec0 : Option EmpApps.AttendanceRecord) (t u : Nat)
    (b : Option EmpAttd.Attendance) (n m : Nat) :
    (EmpApps.isFailureIn (EmpApps.check_in s rec0 t).1 = true →
      (EmpApps.check_in s rec0 t).2 = rec0) ∧
    (EmpApps.isFailureOut (EmpApps.check_out s rec0 u).1 = true →
      (EmpApps.check_out s rec0 u).2 = rec0) ∧
    (EmpAttd.isFailureIn (EmpAttd.check_in b n).1 = true →
      (EmpAttd.check_in b n).2 = b) ∧
    (EmpAttd.isFailureOut (EmpAttd.check_out b m).1 = true →
      (EmpAttd.check_out b m).2 = b) := by
  refine ⟨?_, ?_, ?_, ?_⟩
  · by_cases hw : EmpApps.is_check_in_allowed s t = true
    · cases rec0 with
      | none =>
        intro h
        simp [EmpApps.check_in, hw, EmpApps.newRecord, EmpApps.isFailureIn] at h
      | some r =>
        by_cases hr : r.check_in_time.isSome
        · intro _
          simp [EmpApps.check_in, hw, hr]
        · intro h
          simp [EmpApps.check_in, hw, hr, EmpApps.isFailureIn] at h
    · intro _
      simp [EmpApps.check_in, hw]
  · by_cases hw : EmpApps.is_check_out_allowed s u = true
    · cases rec0 with
      | none =>
        intro _
        simp [EmpApps.check_out, hw]
      | some r =>
        cases hci : r.check_in_time with
        | none =>
          intro _
          simp [EmpApps.check_out, hw, hci]
        | some ci =>
          cases hco : r.check_out_time with
          | some x =>
            intro _
            simp [EmpApps.check_out, hw, hci, hco]
          | none =>
            by_cases hts : (u : ℤ) - (ci : ℤ) < 1800
            · intro _
              simp [EmpApps.check_out, hw, hci, hco, hts]
            · intro h
              simp [EmpApps.check_out, hw, hci, hco, hts, EmpApps.isFailureOut] at h
    · intro _
      simp [EmpApps.check_out, hw]
  · by_cases hwn : 8 * 3600 ≤ n ∧ n ≤ 9 * 3600
    · cases b with
      | none =>
        intro h
        simp [EmpAttd.check_in, hwn, EmpAttd.isFailureIn] at h
      | some a =>
        by_cases ha : a.check_in_time.isSome
        · intro _
          simp [EmpAttd.check_in, hwn, ha]
        · intro h
          simp [EmpAttd.check_in, hwn, ha, EmpAttd.isFailureIn] at h
    · intro _
      simp [EmpAttd.check_in, hwn]
  · by_cases hwm : 17 * 3600 ≤ m ∧ m ≤ 18 * 3600
    · cases b with
      | none =>
        intro _
        simp [EmpAttd.check_out, hwm]
      | some a =>
        by_cases ha : a.check_in_time.isSome
        · by_cases ho : a.check_out_time.isSome
          · intro _
            simp [EmpAttd.check_out, hwm, ha, ho]
          · intro h
            simp [EmpAttd.check_out, hwm, ha, ho, EmpAttd.isFailureOut] at h
        · intro _
          simp [EmpAttd.check_out, hwm, ha]
    · intro _
      simp [EmpAttd.check_out, hwm]

/-- C10 witness: each operation at a concretely failing input (noon is
outside both emp_apps windows; 08:20 hits the duplicate-check-in guard
and is outside the emp_attd check-out window) leaves the stored state
untouched. -/
theorem c10_witness :
    (EmpApps.check_in EmpApps.defaultSettings
      (some { check_in_time := some 28800, check_out_time := none,
              status := Status.present, work_hours := none, notes := "" })
      43200).2 =
      some { check_in_time := some 28800, check_out_time := none,
             status := Status.present, work_hours := none, notes := "" } ∧
    (EmpApps.check_out EmpApps.defaultSettings
      (some { check_in_time := some 28800, check_out_time := none,
              status := Status.present, work_hours := none, notes := "" })
      43200).2 =
      some { check_in_time := some 28800, check_out_time := none,
             status := Status.present, work_hours := none, notes := "" } ∧
    (EmpAttd.check_in
      (some { check_in_time := some 30000, check_out_time := none,
              status := Status.present, is_late := false, notes := "" })
      30600).2 =
      some { check_in_time := some 30000, check_out_time := none,
             status := Status.present, is_late := false, notes := "" } ∧
    (EmpAttd.check_out
      (some { check_in_time := some 30000, check_out_time := none,
              status := Status.present, is_late := false, notes := "" })
      30600).2 =
      some { check_in_time := some 30000, check_out_time := none,
             status := Status.present, is_late := false, notes := "" } :=
  ⟨(c10_failure_leaves_state EmpApps.defaultSettings
      (some { check_in_time := some 28800, check_out_time := none,
              status := Status.present, work_hours := none, notes := "" })
      43200 43200
      (some { check_in_time := some 30000, check_out_time := none,
              status := Status.present, is_late := false, notes := "" })
      30600 30600).1 (by decide),
   (c10_failure_leaves_state EmpApps.defaultSettings
      (some { check_in_time := some 28800, check_out_time := none,
              status := Status.present, work_hours := none, notes := "" })
      43200 43200
      (some { check_in_time := some 30000, check_out_time := none,
              status := Status.present, is_late := false, notes := "" })
      30600 30600).2.1 (by decide),
   (c10_failure_leaves_state EmpApps.defaultSettings
      (some { check_in_time := some 28800, check_out_time := none,
              status := Status.present, work_hours := none, notes := "" })
      43200 43200
      (some { check_in_time := some 30000, check_out_time := none,
              status := Status.present, is_late := false, notes := "" })
      30600 30600).2.2.1 (by decide),
   (c10_failure_leaves_state EmpApps.defaultSettings
      (some { check_in_time := some 28800, check_out_time := none,
              status := Status.present, work_hours := none, notes := "" })
      43200 43200
      (some { check_in_time := some 30000, check_out_time := none,
              status := Status.present, is_late := false, notes := "" })
      30600 30600).2.2.2 (by decide)⟩

end Attendance
